import Mathlib

/-!
Shallow embedding of the nginx-love reverse-proxy management core:
the domain (Site) reconciler (`DomainsService`), the SSL certificate
lifecycle service (`SSLService`), the ACME-backed renewal scheduler
(`SSLSchedulerService`), and their shared constants.  Timestamps are
integers in milliseconds (JavaScript `Date.getTime()`), strings are
Lean strings, and JavaScript string scans are carried out on `List Char`.
External collaborators (nginx config generator, nginx reload executor,
the acme.sh client, the Prisma repositories and the activity log) are
injected through an environment of oracles, mirroring the boundaries
described in the specification.
-/

namespace NginxLove

/-- SSL certificate status, `ssl.types.ts` (`SSLStatus`). -/
inductive SSLStatus
  | valid
  | expiring
  | expired
deriving DecidableEq

/-- Milliseconds per day, written `1000 * 60 * 60 * 24` in the source. -/
def msPerDay : Int := 1000 * 60 * 60 * 24

/-- `SSL_CONSTANTS.EXPIRING_THRESHOLD_DAYS` from `ssl.types.ts`. -/
def EXPIRING_THRESHOLD_DAYS : Int := 30

/-- `SSL_CONSTANTS.MANUAL_ISSUER` from `ssl.types.ts`. -/
def MANUAL_ISSUER : String := "Manual Upload"

/-- `SSL_CONSTANTS.AUTO_RENEWABLE_ISSUERS` from `ssl.types.ts`. -/
def AUTO_RENEWABLE_ISSUERS : List String := ["Let\x27s Encrypt", "ZeroSSL"]

/-- `SSLService.calculateStatus` from `ssl.service.ts`: floor the
millisecond difference down to whole days, then compare with 0 and the
30-day threshold.  The JavaScript `Math.floor` of the real division is
integer floor division (`Int.fdiv`). -/
def calculateStatus (validTo now : Int) : SSLStatus :=
  let daysUntilExpiry := Int.fdiv (validTo - now) msPerDay
  if daysUntilExpiry < 0 then .expired
  else if daysUntilExpiry < EXPIRING_THRESHOLD_DAYS then .expiring
  else .valid

/-- Character-wise lower casing, the embedding of `String.toLowerCase()`. -/
def toLowerList (l : List Char) : List Char := l.map Char.toLower

/-- The embedding of JavaScript `split(".")` on a character list:
`"a.b"` gives `["a", "b"]`, the empty string gives `[""]`, and separators
at the edges produce empty components. -/
def splitOnDot : List Char → List (List Char)
  | [] => [[]]
  | c :: rest =>
    let r := splitOnDot rest
    if c = '.' then [] :: r
    else
      match r with
      | [] => [[c]]
      | h :: t => (c :: h) :: t

/-- The final block of `matchesHostname` in `ssl.service.ts`: when the
target domain has at least 3 labels, compare the certificate name with
the wildcard of the parent domain (`"*." + parts.slice(1).join(".")`). -/
def wildcardParentRule (cert domain : List Char) : Bool :=
  let domainParts := splitOnDot domain
  if 3 ≤ domainParts.length then
    decide (cert = '*' :: '.' :: List.intercalate ['.'] domainParts.tail)
  else false

/-- The body of `matchesHostname` in `ssl.service.ts` after both inputs
have been lower-cased: exact match; else the wildcard suffix rule
(`cert = "*.<base>"`, domain ends with `<base>`, and the part before the
base is empty or ends with a dot); else the multi-level parent rule. -/
def matchesLower (cert domain : List Char) : Bool :=
  if cert = domain then true
  else if ['*', '.'] <+: cert then
    if (cert.drop 2) <:+ domain then
      let beforeBase := domain.take (domain.length - (cert.drop 2).length)
      decide (beforeBase = [] ∨ ['.'] <:+ beforeBase)
    else wildcardParentRule cert domain
  else wildcardParentRule cert domain

/-- `matchesHostname` from `SSLService.uploadManualCertificate`
(`ssl.service.ts`): lower-case both names, then run the matching body. -/
def matchesHostname (certName domainName : String) : Bool :=
  matchesLower (toLowerList certName.data) (toLowerList domainName.data)

/-- The per-certificate outcome of one scheduler sweep
(`SSLSchedulerService.checkAndRenewExpiringCertificates`). -/
inductive SweepAction
  | skipAutoRenew
  | skipIssuerNotRenewable
  | skipNotDue
  | renew
deriving DecidableEq

/-- `SSLSchedulerService.renewThresholdDays` default (30 days). -/
def renewThresholdDays : Int := 30

/-- Upstream server attached to a domain (`prisma` upstream rows as the
service snapshots them in `updateDomain`). -/
structure Upstream where
  host : String
  port : Int
  protocol : String
  sslVerify : Bool
  weight : Int
  maxFails : Int
  failTimeout : Int
deriving DecidableEq

/-- Load balancer configuration attached to a domain. -/
structure LoadBalancer where
  algorithm : String
  healthCheckEnabled : Bool
  healthCheckInterval : Int
  healthCheckTimeout : Int
  healthCheckPath : String
deriving DecidableEq

/-- A Site record with its relations (`DomainWithRelations`): identity,
name, lifecycle status, SSL flags, modsecurity flag, upstreams, optional
load balancer and, when present, the id of its SSL certificate. -/
structure Domain where
  id : String
  name : String
  status : String
  sslEnabled : Bool
  sslExpiry : Option Int
  modsecEnabled : Bool
  upstreams : List Upstream
  loadBalancer : Option LoadBalancer
  sslCertificate : Option String
deriving DecidableEq

/-- An SSL certificate record with its domain relation
(`SSLCertificateWithDomain`). -/
structure Cert where
  id : String
  domainId : String
  domainName : String
  commonName : String
  sans : List String
  issuer : String
  certificate : String
  privateKey : String
  chain : Option String
  validFrom : Int
  validTo : Int
  autoRenew : Bool
  status : SSLStatus
deriving DecidableEq

/-- `ParsedCertificate` from `ssl.types.ts` (the fields the claims use). -/
structure ParsedCert where
  commonName : String
  sans : List String
  issuer : String
  validFrom : Int
  validTo : Int
  serialNumber : String
deriving DecidableEq

/-- `CertificateFiles` returned by the acme.sh client. -/
structure CertFiles where
  certificate : String
  privateKey : String
  chain : String
deriving DecidableEq

/-- Decision of `checkAndRenewExpiringCertificates` for one certificate:
skip when autoRenew is off, skip when the issuer is not allow-listed,
renew when `validTo` is at or before `now + threshold` days, and skip as
not due otherwise. -/
def sweepDecision (now : Int) (c : Cert) : SweepAction :=
  if !c.autoRenew then .skipAutoRenew
  else if ¬ (c.issuer ∈ AUTO_RENEWABLE_ISSUERS) then .skipIssuerNotRenewable
  else if c.validTo ≤ now + renewThresholdDays * msPerDay then .renew
  else .skipNotDue

/-- The sweep loop of `checkAndRenewExpiringCertificates` over the stored
certificates: each certificate is classified in turn; renewals are spawned
fire-and-forget, so the sweep records the spawned action and moves on
without consuming any renewal result. -/
def checkAndRenewExpiringCertificates (now : Int) : List Cert → List (String × SweepAction)
  | [] => []
  | c :: rest => (c.id, sweepDecision now c) :: checkAndRenewExpiringCertificates now rest

/-- Outcome of `AcmeService.validateKeyPair` as consumed by the upload
path: the pair matches, the pair provably does not match, or the check
could not be completed and the service proceeds with caution. -/
inductive KeyPairOutcome
  | matches
  | mismatch
  | inconclusive
deriving DecidableEq

/-- `UpdateDomainInput`: the partial update accepted by `updateDomain`,
with exactly the fields `updateDomain` snapshots for rollback. -/
structure UpdateDomainInput where
  name : Option String
  status : Option String
  modsecEnabled : Option Bool
  upstreams : Option (List Upstream)
  loadBalancer : Option LoadBalancer
deriving DecidableEq

/-- `CreateDomainInput` for `createDomain`. -/
structure CreateDomainInput where
  name : String
  modsecEnabled : Bool
  upstreams : List Upstream
  loadBalancer : Option LoadBalancer
  autoCreateSSL : Bool
  sslEmail : Option String
deriving DecidableEq

/-- `UploadManualSSLDto` for `uploadManualCertificate`. -/
structure UploadManualSSLDto where
  domainId : String
  certificate : String
  privateKey : String
  chain : Option String
  issuer : Option String
deriving DecidableEq

/-- The typed errors the services throw (`throw new Error(...)` with the
messages the controllers match on). -/
inductive Err
  | alreadyExists
  | notFound
  | fetchFailed
  | invalidConfig
  | reloadFailed (reason : String)
  | preconditionFailed
  | sslCertExists
  | parseFailed (msg : String)
  | keyMismatch
  | domainMismatch
  | certExpired
  | notRenewable
  | notEligible
  | logFailed
deriving DecidableEq

/-- The observable system state: the domain table, the certificate table,
the rendered nginx config artifacts (keyed by domain name, holding the
Site snapshot the artifact was rendered from), the enabled config names,
the certificate files written under `/etc/nginx/ssl`, the number of
nginx reload invocations so far, and the activity log. -/
structure St where
  repo : List Domain
  certs : List Cert
  files : List (String × Domain)
  enabled : List String
  sslFiles : List String
  reloadCalls : Nat
  activityLog : List (String × String × Bool)
deriving DecidableEq

/-- External collaborators, injected as oracles: fresh record ids, the
clock, config-generator validation, the reload executor outcome per
reload call, activity-log availability, certificate parsing, key-pair
validation, the acme.sh renewal call, and filesystem writes. -/
structure Env where
  freshId : String
  now : Int
  genOk : Domain → Bool
  reloadOk : Nat → Bool
  reloadErr : Nat → Option String
  logOk : Bool
  parseResult : String → Except String ParsedCert
  keyPair : String → String → KeyPairOutcome
  acmeRenew : String → Except String CertFiles
  fsOk : Bool
  issueAuto : Except String Int

/-- Result of one `nginxReloadService.reload()` call. -/
structure ReloadOut where
  ok : Bool
  err : Option String
  st : St

/-- Modelled from the spec: `Repository` point lookup by id
(`domainsRepository.findById`). -/
def findById (s : St) (id : String) : Option Domain :=
  s.repo.find? (fun d => decide (d.id = id))

/-- Modelled from the spec: `Repository` lookup by unique name
(`domainsRepository.findByName`). -/
def findByName (s : St) (name : String) : Option Domain :=
  s.repo.find? (fun d => decide (d.name = name))

/-- Modelled from the spec: `sslRepository.findById`. -/
def findCertById (s : St) (id : String) : Option Cert :=
  s.certs.find? (fun c => decide (c.id = id))

/-- Modelled from the spec: `sslRepository.findByDomainId`. -/
def findCertByDomainId (s : St) (domainId : String) : Option Cert :=
  s.certs.find? (fun c => decide (c.domainId = domainId))

/-- Modelled from the spec: an in-place `Repository` update of the domain
with the given id. -/
def mapRepo (id : String) (f : Domain → Domain) (s : St) : St :=
  { s with repo := s.repo.map (fun d => if d.id = id then f d else d) }

/-- Modelled from the spec: `domainsRepository.delete`. -/
def repoDelete (id : String) (s : St) : St :=
  { s with repo := s.repo.filter (fun d => decide (d.id ≠ id)) }

/-- Modelled from the spec: merge an `UpdateDomainInput` into a stored
Site (`domainsRepository.update`).  Scalar fields and the upstream list
are replaced when provided; the nested load-balancer object is written
as given, so that writing the rollback snapshot back restores the exact
prior shape, as the spec requires of the repository. -/
def applyUpdate (d : Domain) (i : UpdateDomainInput) : Domain :=
  { d with
    name := i.name.getD d.name
    status := i.status.getD d.status
    modsecEnabled := i.modsecEnabled.getD d.modsecEnabled
    upstreams := i.upstreams.getD d.upstreams
    loadBalancer := i.loadBalancer }

/-- The `originalData` snapshot taken by `updateDomain` before mutating:
name, status, modsecurity flag, the upstream rows and the load-balancer
object of the current Site. -/
def snapshotOf (d : Domain) : UpdateDomainInput :=
  { name := some d.name
    status := some d.status
    modsecEnabled := some d.modsecEnabled
    upstreams := some d.upstreams
    loadBalancer := d.loadBalancer }

/-- Write (or overwrite) a rendered config artifact. -/
def setFile (name : String) (a : Domain) (l : List (String × Domain)) :
    List (String × Domain) :=
  (name, a) :: l.filter (fun p => decide (p.1 ≠ name))

/-- Look up a rendered config artifact by domain name. -/
def getFile (l : List (String × Domain)) (name : String) : Option Domain :=
  (l.find? (fun p => decide (p.1 = name))).map (fun p => p.2)

/-- Modelled from the spec: `nginxConfigService.generateConfig` —
a pure render of the Site into the config artifact, preceded by
validation; on validation failure it throws and writes nothing. -/
def generateConfigE (env : Env) (d : Domain) (s : St) : Except Unit Unit × St :=
  if env.genOk d then (.ok (), { s with files := setFile d.name d s.files })
  else (.error (), s)

/-- Modelled from the spec: `nginxConfigService.enableConfig`. -/
def enableConfig (name : String) (s : St) : St :=
  { s with enabled := s.enabled ++ [name] }

/-- Modelled from the spec: `nginxConfigService.deleteConfig` removes the
rendered artifact and its enabled link. -/
def deleteConfig (name : String) (s : St) : St :=
  { s with
    files := s.files.filter (fun p => decide (p.1 ≠ name))
    enabled := s.enabled.filter (fun n => decide (n ≠ name)) }

/-- Modelled from the spec: `nginxReloadService.reload()` — asks the
reload executor to validate and swap the live config, returning success
and an optional error, and consuming one reload slot. -/
def reloadCall (env : Env) (s : St) : ReloadOut :=
  { ok := env.reloadOk s.reloadCalls
    err := env.reloadErr s.reloadCalls
    st := { s with reloadCalls := s.reloadCalls + 1 } }

/-- Modelled from the spec: `nginxReloadService.autoReload(true)` — the
reload executor invocation whose result the caller ignores. -/
def autoReloadCall (s : St) : St :=
  { s with reloadCalls := s.reloadCalls + 1 }

/-- `DomainsService.logActivity`: the activity-log write is wrapped in
try/catch; a failure is logged locally and swallowed, so the call always
returns successfully. -/
def domLogActivity (env : Env) (userId action : String) (success : Bool) (s : St) :
    Except Err Unit × St :=
  if env.logOk then
    (.ok (), { s with activityLog := s.activityLog ++ [(userId, action, success)] })
  else (.ok (), s)

/-- `SSLService.logActivity`: the activity-log write is awaited with no
try/catch, so a failure propagates to the caller. -/
def sslLogActivity (env : Env) (userId action : String) (success : Bool) (s : St) :
    Except Err Unit × St :=
  if env.logOk then
    (.ok (), { s with activityLog := s.activityLog ++ [(userId, action, success)] })
  else (.error .logFailed, s)

/-- Modelled from the spec: `sslRepository.updateDomainSSLExpiry`. -/
def updateDomainSSLExpiry (domainId : String) (validTo : Int) (s : St) : St :=
  mapRepo domainId (fun d => { d with sslExpiry := some validTo }) s

/-- Modelled from the spec: `sslRepository.update` replacing the stored
certificate record with the merged record. -/
def mapCerts (id : String) (f : Cert → Cert) (s : St) : St :=
  { s with certs := s.certs.map (fun c => if c.id = id then f c else c) }

/-- The try-block of `DomainsService.updateDomain`: persist the requested
mutation, re-read the merged Site, regenerate the artifact, reload; on
reload failure restore the snapshot, re-read, regenerate from the
snapshot and throw the reload error.  No second reload is issued. -/
def updateBody (env : Env) (id : String) (input od : UpdateDomainInput) (s0 : St) :
    Except Err Domain × St :=
  let s1 := mapRepo id (fun d => applyUpdate d input) s0
  match findById s1 id with
  | none => (.error .fetchFailed, s1)
  | some updated =>
    match generateConfigE env updated s1 with
    | (.error _, s2) => (.error .invalidConfig, s2)
    | (.ok _, s2) =>
      let r := reloadCall env s2
      if r.ok then
        let l := domLogActivity env "user" ("Updated domain: " ++ updated.name) true r.st
        (.ok updated, l.2)
      else
        let s4 := mapRepo id (fun d => applyUpdate d od) r.st
        match findById s4 id with
        | some restored =>
          match generateConfigE env restored s4 with
          | (.ok _, s5) => (.error (.reloadFailed ((r.err).getD "Unknown error")), s5)
          | (.error _, s5) => (.error .invalidConfig, s5)
        | none => (.error (.reloadFailed ((r.err).getD "Unknown error")), s4)

/-- The catch-block of `DomainsService.updateDomain`: restore the
snapshot, re-read, regenerate the artifact from the restored Site, and
swallow any error of this rollback itself. -/
def updateRollback (env : Env) (id : String) (od : UpdateDomainInput) (s : St) : St :=
  let s1 := mapRepo id (fun d => applyUpdate d od) s
  match findById s1 id with
  | some restored => (generateConfigE env restored s1).2
  | none => s1

/-- `DomainsService.updateDomain`: look up the Site, snapshot it, run the
mutating body, and on any thrown error run the catch-block rollback
before re-throwing. -/
def updateDomain (env : Env) (id : String) (input : UpdateDomainInput) (s0 : St) :
    Except Err Domain × St :=
  match findById s0 id with
  | none => (.error .notFound, s0)
  | some original =>
    let od := snapshotOf original
    match updateBody env id input od s0 with
    | (.ok d, s) => (.ok d, s)
    | (.error e, s) => (.error e, updateRollback env id od s)

/-- The Site record `domainsRepository.create` persists for a new domain:
status `pending`, SSL off, no certificate. -/
def newDomainOf (env : Env) (input : CreateDomainInput) : Domain :=
  { id := env.freshId
    name := input.name
    status := "pending"
    sslEnabled := false
    sslExpiry := none
    modsecEnabled := input.modsecEnabled
    upstreams := input.upstreams
    loadBalancer := input.loadBalancer
    sslCertificate := none }

/-- The best-effort auto-SSL follow-up inside `createDomain`: issue a
certificate, and on success enable SSL, regenerate and reload (result
ignored); every failure inside this block is caught and logged without
undoing the committed Site creation. -/
def autoSSLFollowup (env : Env) (input : CreateDomainInput) (d0 updated : Domain)
    (s : St) : Except Err Domain × St :=
  if input.autoCreateSSL ∧ input.sslEmail.isSome then
    match env.issueAuto with
    | .ok validTo =>
      let s1 := mapRepo d0.id (fun d => { d with sslEnabled := true, sslExpiry := some validTo }) s
      let enabledDomain := { updated with sslEnabled := true, sslExpiry := some validTo }
      match generateConfigE env enabledDomain s1 with
      | (.ok _, s2) =>
        let r := reloadCall env s2
        let l := domLogActivity env "user"
          ("Auto-created and enabled SSL certificate for domain: " ++ input.name) true r.st
        (.ok enabledDomain, l.2)
      | (.error _, s2) =>
        let l := domLogActivity env "user"
          ("Auto-created and enabled SSL certificate for domain: " ++ input.name) true s2
        (.ok updated, l.2)
    | .error _ =>
      let l := domLogActivity env "user"
        ("Failed to auto-create SSL certificate for domain: " ++ input.name) false s
      (.ok updated, l.2)
  else (.ok updated, s)

/-- The try-block of `DomainsService.createDomain`: generate the config
for the pending Site, mark it active, enable the config, reload; on
reload failure delete the artifact and the Site record and throw the
reload error; on success log and run the auto-SSL follow-up. -/
def createBody (env : Env) (input : CreateDomainInput) (d0 : Domain) (s1 : St) :
    Except Err Domain × St :=
  match generateConfigE env d0 s1 with
  | (.error _, s2) => (.error .invalidConfig, s2)
  | (.ok _, s2) =>
    let s3 := mapRepo d0.id (fun d => { d with status := "active" }) s2
    let updated := { d0 with status := "active" }
    let s4 := enableConfig d0.name s3
    let r := reloadCall env s4
    if r.ok then
      let l := domLogActivity env "user" ("Created domain: " ++ input.name) true r.st
      autoSSLFollowup env input d0 updated l.2
    else
      let s5 := deleteConfig d0.name r.st
      let s6 := repoDelete d0.id s5
      (.error (.reloadFailed ((r.err).getD "Unknown error")), s6)

/-- `DomainsService.createDomain`: refuse duplicates, persist the pending
Site, run the body; on any thrown error delete the artifact and the Site
record (catch-block rollback) and re-throw. -/
def createDomain (env : Env) (input : CreateDomainInput) (s0 : St) :
    Except Err Domain × St :=
  match findByName s0 input.name with
  | some _ => (.error .alreadyExists, s0)
  | none =>
    let d0 := newDomainOf env input
    let s1 := { s0 with repo := s0.repo ++ [d0] }
    match createBody env input d0 s1 with
    | (.ok d, s) => (.ok d, s)
    | (.error e, s) =>
      let s2 := deleteConfig d0.name s
      let s3 := repoDelete d0.id s2
      (.error e, s3)

/-- `DomainsService.toggleSSL`: look up the Site; when enabling SSL with
no certificate attached, throw before any mutation; otherwise flip the
flag, regenerate, auto-reload and log. -/
def toggleSSL (env : Env) (id : String) (sslEnabled : Bool) (s0 : St) :
    Except Err Domain × St :=
  match findById s0 id with
  | none => (.error .notFound, s0)
  | some domain =>
    if sslEnabled ∧ domain.sslCertificate = none then (.error .preconditionFailed, s0)
    else
      let s1 := mapRepo id (fun d => { d with sslEnabled := sslEnabled }) s0
      let updated := { domain with sslEnabled := sslEnabled }
      match generateConfigE env updated s1 with
      | (.error _, s2) => (.error .invalidConfig, s2)
      | (.ok _, s2) =>
        let s3 := autoReloadCall s2
        let l := domLogActivity env "user"
          ((if sslEnabled then "Enabled" else "Disabled") ++ " SSL for domain: " ++ domain.name)
          true s3
        (.ok updated, l.2)

/-- JavaScript `a || b` on strings: the empty string is falsy. -/
def jsOrStr (a b : String) : String := if a = "" then b else a

/-- The certificate record `uploadManualCertificate` persists: parsed
fields, the uploaded material, `autoRenew` forced to false, and the
status computed from the parsed expiry. -/
def uploadCertRecord (env : Env) (dto : UploadManualSSLDto) (dom : Domain)
    (info : ParsedCert) : Cert :=
  { id := env.freshId
    domainId := dto.domainId
    domainName := dom.name
    commonName := info.commonName
    sans := info.sans
    issuer := jsOrStr (dto.issuer.getD "") (jsOrStr info.issuer MANUAL_ISSUER)
    certificate := dto.certificate
    privateKey := dto.privateKey
    chain := dto.chain
    validFrom := info.validFrom
    validTo := info.validTo
    autoRenew := false
    status := calculateStatus info.validTo env.now }

/-- `SSLService.uploadManualCertificate`: check the domain exists and has
no certificate; parse the material; validate the key pair (a definite
mismatch throws, an inconclusive check proceeds); match the domain name
against the common name or any SAN; reject expired material; persist the
record with `autoRenew := false`; write the files to disk inside a
try/catch whose failure is only logged; update the cached `sslExpiry`;
write the activity log (un-caught); return the created record. -/
def uploadManualCertificate (env : Env) (dto : UploadManualSSLDto) (s0 : St) :
    Except Err Cert × St :=
  match findById s0 dto.domainId with
  | none => (.error .notFound, s0)
  | some dom =>
    match findCertByDomainId s0 dto.domainId with
    | some _ => (.error .sslCertExists, s0)
    | none =>
      match env.parseResult dto.certificate with
      | .error m => (.error (.parseFailed m), s0)
      | .ok info =>
        if env.keyPair dto.certificate dto.privateKey = .mismatch then
          (.error .keyMismatch, s0)
        else
          let domainMatches := matchesHostname info.commonName dom.name
            || info.sans.any (fun san => matchesHostname san dom.name)
          if !domainMatches then (.error .domainMismatch, s0)
          else if info.validTo < env.now then (.error .certExpired, s0)
          else
            let cert := uploadCertRecord env dto dom info
            let s1 := { s0 with certs := s0.certs ++ [cert] }
            let s2 :=
              if env.fsOk then
                { s1 with sslFiles := s1.sslFiles ++
                    [dom.name ++ ".crt", dom.name ++ ".key"] ++
                    (if dto.chain.isSome then [dom.name ++ ".chain.crt"] else []) }
              else s1
            let s3 := updateDomainSSLExpiry dto.domainId info.validTo s2
            match sslLogActivity env "user"
                ("Uploaded manual SSL certificate for " ++ dom.name) true s3 with
            | (.error e, s4) => (.error e, s4)
            | (.ok _, s4) => (.ok cert, s4)

/-- `SSLService.renewCertificate`: look up the certificate; refuse
issuers outside the allow-list; refuse renewal when more than 30 days
remain; try the acme.sh renewal and parse the result, and on ANY failure
fall back to keeping the old material while moving the validity window
to `now .. now + 90 days` (the "extend expiry" placeholder); commit the
merged record with status `valid`; update the cached `sslExpiry`; write
the activity log (un-caught); return the updated record. -/
def renewCertificate (env : Env) (id : String) (s0 : St) : Except Err Cert × St :=
  match findCertById s0 id with
  | none => (.error .notFound, s0)
  | some cert =>
    if ¬ (cert.issuer ∈ AUTO_RENEWABLE_ISSUERS) then (.error .notRenewable, s0)
    else
      let daysUntilExpiry := Int.fdiv (cert.validTo - env.now) msPerDay
      if 30 < daysUntilExpiry then (.error .notEligible, s0)
      else
        let attempt : Except String (CertFiles × ParsedCert) :=
          match env.acmeRenew cert.domainName with
          | .error m => .error m
          | .ok files =>
            match env.parseResult files.certificate with
            | .error m => .error m
            | .ok info => .ok (files, info)
        let updated :=
          match attempt with
          | .ok (files, info) =>
            { cert with
              certificate := files.certificate
              privateKey := files.privateKey
              chain := some files.chain
              commonName := info.commonName
              sans := info.sans
              issuer := info.issuer
              validFrom := info.validFrom
              validTo := info.validTo
              status := .valid }
          | .error _ =>
            { cert with
              validFrom := env.now
              validTo := env.now + 90 * msPerDay
              status := .valid }
        let s1 := mapCerts id (fun _ => updated) s0
        let s2 := updateDomainSSLExpiry cert.domainId updated.validTo s1
        match sslLogActivity env "user"
            ("Renewed SSL certificate for " ++ cert.domainName) true s2 with
        | (.error e, s3) => (.error e, s3)
        | (.ok _, s3) => (.ok updated, s3)

/-- Concrete upstream on port 80 for test runs. -/
def upA : Upstream :=
  { host := "10.0.0.1", port := 80, protocol := "http", sslVerify := true,
    weight := 1, maxFails := 3, failTimeout := 10 }

/-- Concrete domain record backing the test runs. -/
def domA : Domain :=
  { id := "d1", name := "api.example.com", status := "active", sslEnabled := false,
    sslExpiry := none, modsecEnabled := false, upstreams := [upA],
    loadBalancer := none, sslCertificate := none }

/-- Initial state holding exactly `domA`. -/
def stA : St :=
  { repo := [domA], certs := [], files := [], enabled := [], sslFiles := [],
    reloadCalls := 0, activityLog := [] }

/-- Parsed-certificate fixture matching `domA` and expiring in 100 days. -/
def infoA : ParsedCert :=
  { commonName := "api.example.com", sans := ["api.example.com"], issuer := "ZeroSSL",
    validFrom := 0, validTo := 100 * msPerDay, serialNumber := "01" }

/-- Baseline oracle environment: happy collaborators, failing acme renewal. -/
def envBase : Env :=
  { freshId := "c9", now := 0, genOk := fun _ => true, reloadOk := fun _ => true,
    reloadErr := fun _ => none, logOk := true, parseResult := fun _ => .ok infoA,
    keyPair := fun _ _ => .matches,
    acmeRenew := fun _ => .error "Rate limited by CA, will retry in next cycle",
    fsOk := true, issueAuto := .error "skipped" }

/-- Environment in which every nginx reload fails with reason `boom`. -/
def envReloadFail : Env :=
  { envBase with reloadOk := fun _ => false, reloadErr := fun _ => some "boom" }

/-- Environment in which the activity-log write fails. -/
def envLogFail : Env := { envBase with logOk := false }

/-- Environment in which certificate file writes to disk fail. -/
def envFsFail : Env := { envBase with fsOk := false }

/-- Manual-upload payload targeting `domA`. -/
def dtoA : UploadManualSSLDto :=
  { domainId := "d1", certificate := "PEMCERT", privateKey := "PEMKEY",
    chain := none, issuer := none }

/-- Stored certificate fixture for renewal runs: ZeroSSL issued, auto-renew
on, 10 days from expiry at clock 0. -/
def certA : Cert :=
  { id := "c1", domainId := "d1", domainName := "api.example.com",
    commonName := "api.example.com", sans := ["api.example.com"], issuer := "ZeroSSL",
    certificate := "OLDPEM", privateKey := "OLDKEY", chain := none,
    validFrom := -100 * msPerDay, validTo := 10 * msPerDay, autoRenew := true,
    status := .expiring }

/-- State holding `domA` and the stored certificate `certA`. -/
def stR : St := { stA with certs := [certA] }

/-- The record `renewCertificate` commits for `certA` when the acme
renewal call fails: old material, fresh 90-day validity window, status
forced to `valid`. -/
def certExtendedA : Cert :=
  { certA with validFrom := 0, validTo := 90 * msPerDay, status := .valid }

/-- Update payload switching the upstream of `domA` to port 8080. -/
def inpPortChange : UpdateDomainInput :=
  { name := none, status := none, modsecEnabled := none,
    upstreams := some [{ upA with port := 8080 }], loadBalancer := none }

/-- Creation payload for a fresh domain with no auto SSL. -/
def inpCreate : CreateDomainInput :=
  { name := "new.example.com", modsecEnabled := false, upstreams := [upA],
    loadBalancer := none, autoCreateSSL := false, sslEmail := none }

/-- C2: `calculateStatus` returns `expired` exactly when `validTo < now`,
`expiring` exactly when `now ≤ validTo < now + 30 days`, `valid`
otherwise, and the 30-day threshold is the fixed constant. -/
theorem calculateStatus_spec (validTo now : Int) :
    (calculateStatus validTo now = .expired ↔ validTo < now) ∧
    (calculateStatus validTo now = .expiring ↔
      now ≤ validTo ∧ validTo < now + EXPIRING_THRESHOLD_DAYS * msPerDay) ∧
    (calculateStatus validTo now = .valid ↔
      now + EXPIRING_THRESHOLD_DAYS * msPerDay ≤ validTo) ∧
    EXPIRING_THRESHOLD_DAYS = 30 := by
  have hms : msPerDay = 86400000 := by norm_num [msPerDay]
  have hth : EXPIRING_THRESHOLD_DAYS = 30 := rfl
  have hrw : Int.fdiv (validTo - now) msPerDay = (validTo - now) / 86400000 := by
    rw [hms]; exact Int.fdiv_eq_ediv _ (by norm_num)
  refine ⟨?_, ?_, ?_, rfl⟩ <;>
    simp only [calculateStatus, hrw, hms, hth] <;>
    split_ifs with h1 h2 <;> simp_all <;> omega

/-- C2 witness: at `validTo = 0`, `now = 86400000`, the status is
`expired`. -/
theorem calculateStatus_spec_witness : calculateStatus 0 86400000 = .expired :=
  (calculateStatus_spec 0 86400000).1.mpr (by norm_num)

/-- A wildcard certificate name accepts a target only through one of the
three rules visible in the matcher body: the target equals the base, the
target ends in a dot followed by the base, or the target has at least
three labels and its parent-domain wildcard equals the certificate name. -/
theorem matchesLower_wildcard_only (base domain : List Char)
    (h : matchesLower ('*' :: '.' :: base) domain = true) :
    domain = base ∨ ('.' :: base) <:+ domain ∨
      (3 ≤ (splitOnDot domain).length ∧
        '*' :: '.' :: List.intercalate ['.'] (splitOnDot domain).tail =
          '*' :: '.' :: base) := by
  simp only [matchesLower] at h
  by_cases h0 : ('*' :: '.' :: base) = domain
  · right; left
    exact h0 ▸ ⟨['*'], rfl⟩
  · rw [if_neg h0] at h
    have hpre : (['*', '.'] <+: ('*' :: '.' :: base)) := ⟨base, rfl⟩
    rw [if_pos hpre] at h
    have hdrop : ('*' :: '.' :: base).drop 2 = base := rfl
    rw [hdrop] at h
    by_cases hsuf : base <:+ domain
    · rw [if_pos hsuf] at h
      obtain ⟨pre, hpre2⟩ := hsuf
      have hlen : domain.length - base.length = pre.length := by
        rw [← hpre2, List.length_append]; omega
      rw [hlen, ← hpre2, List.take_left] at h
      rcases of_decide_eq_true h with h2 | h2
      · left; rw [← hpre2, h2, List.nil_append]
      · obtain ⟨q, hq⟩ := h2
        right; left
        refine ⟨q, ?_⟩
        rw [← hpre2, ← hq]
        simp [List.append_assoc]
    · rw [if_neg hsuf] at h
      simp only [wildcardParentRule] at h
      by_cases h3 : 3 ≤ (splitOnDot domain).length
      · rw [if_pos h3] at h
        exact Or.inr (Or.inr ⟨h3, (of_decide_eq_true h).symm⟩)
      · rw [if_neg h3] at h
        exact absurd h (by simp)

/-- C3: the four example evaluations of the manual-upload hostname
matcher, together with the rule that a wildcard certificate name matches
a target only via equality with the base, a proper dot-separated suffix,
or the explicit multi-level parent rule. -/
theorem matchesHostname_wildcard_spec :
    matchesHostname "*.example.com" "dev.example.com" = true ∧
    matchesHostname "*.example.com" "a.b.example.com" = true ∧
    matchesHostname "*.example.com" "badexample.com" = false ∧
    matchesHostname "*.example.com" "example.com.evil.org" = false ∧
    ∀ base domain, matchesLower ('*' :: '.' :: base) domain = true →
      domain = base ∨ ('.' :: base) <:+ domain ∨
        (3 ≤ (splitOnDot domain).length ∧
          '*' :: '.' :: List.intercalate ['.'] (splitOnDot domain).tail =
            '*' :: '.' :: base) :=
  ⟨by decide, by decide, by decide, by decide, matchesLower_wildcard_only⟩

/-- C3 witness: instantiating the wildcard rule at
`*.example.com` versus `dev.example.com` yields the dot-suffix case. -/
theorem matchesHostname_wildcard_spec_witness :
    "dev.example.com".data = "example.com".data ∨
      ('.' :: "example.com".data) <:+ "dev.example.com".data ∨
      (3 ≤ (splitOnDot "dev.example.com".data).length ∧
        '*' :: '.' :: List.intercalate ['.'] (splitOnDot "dev.example.com".data).tail =
          '*' :: '.' :: "example.com".data) :=
  matchesHostname_wildcard_spec.2.2.2.2 "example.com".data "dev.example.com".data
    (by decide)

/-- C5: toggling SSL on for a Site with no attached certificate fails
with the precondition error and returns the state unchanged: no Site
mutation, no reload call, no log entry. -/
theorem toggleSSL_precondition (env : Env) (id : String) (s0 : St) (d : Domain)
    (hfind : findById s0 id = some d) (hcert : d.sslCertificate = none) :
    toggleSSL env id true s0 = (.error .preconditionFailed, s0) := by
  simp [toggleSSL, hfind, hcert]

/-- C5 witness: on the concrete certificate-less domain `domA`, enabling
SSL fails with the precondition error and leaves the state untouched. -/
theorem toggleSSL_precondition_witness :
    toggleSSL envBase "d1" true stA = (.error .preconditionFailed, stA) :=
  toggleSSL_precondition envBase "d1" stA domA (by decide) rfl

/-- C7: one sweep classifies each stored certificate independently, in
order, and the classification is exactly: skip when autoRenew is off,
else skip when the issuer is not allow-listed, else renew when no more
than the 30-day threshold remains, else skip as not due. -/
theorem sweepDecision_spec :
    (∀ now certs, checkAndRenewExpiringCertificates now certs =
      certs.map (fun c => (c.id, sweepDecision now c))) ∧
    (∀ now c, sweepDecision now c = .skipAutoRenew ↔ c.autoRenew = false) ∧
    (∀ now c, sweepDecision now c = .skipIssuerNotRenewable ↔
      c.autoRenew = true ∧ c.issuer ∉ AUTO_RENEWABLE_ISSUERS) ∧
    (∀ now c, sweepDecision now c = .skipNotDue ↔
      c.autoRenew = true ∧ c.issuer ∈ AUTO_RENEWABLE_ISSUERS ∧
        now + renewThresholdDays * msPerDay < c.validTo) ∧
    (∀ now c, sweepDecision now c = .renew ↔
      c.autoRenew = true ∧ c.issuer ∈ AUTO_RENEWABLE_ISSUERS ∧
        c.validTo ≤ now + renewThresholdDays * msPerDay) := by
  refine ⟨?_, ?_, ?_, ?_, ?_⟩
  · intro now certs
    induction certs with
    | nil => rfl
    | cons c rest ih => simp [checkAndRenewExpiringCertificates, ih]
  all_goals
    intro now c
    unfold sweepDecision
    split_ifs with h1 h2 h3 <;> simp_all

/-- C7 witness: a ZeroSSL certificate with autoRenew on and 10 days left
is classified `renew`. -/
theorem sweepDecision_spec_witness : sweepDecision 0 certA = .renew :=
  (sweepDecision_spec.2.2.2.2 0 certA).mpr ⟨rfl, by decide, by decide⟩

/-- C9 (amended): a failing activity-log write is swallowed inside
`DomainsService.logActivity`, which always returns successfully, while
`SSLService.logActivity` has no catch and surfaces the failure to its
caller. -/
theorem logActivity_swallow_split :
    (∀ env userId action success s,
      (domLogActivity env userId action success s).1 = Except.ok ()) ∧
    (∀ env userId action success s, env.logOk = false →
      (sslLogActivity env userId action success s).1 = Except.error Err.logFailed) := by
  constructor
  · intro env u a su s
    unfold domLogActivity
    split <;> rfl
  · intro env u a su s h
    simp [sslLogActivity, h]

/-- C9 witness: with a failing log backend, the domains-side logger still
returns ok while the SSL-side logger returns the log failure. -/
theorem logActivity_swallow_split_witness :
    (domLogActivity envLogFail "u" "a" true stA).1 = Except.ok () ∧
    (sslLogActivity envLogFail "u" "a" true stA).1 = Except.error Err.logFailed :=
  ⟨logActivity_swallow_split.1 envLogFail "u" "a" true stA,
   logActivity_swallow_split.2 envLogFail "u" "a" true stA rfl⟩

/-- C9 counterexample: a manual certificate upload in which every
validation passes but the activity-log write fails returns the log
failure to the caller, after having already persisted the certificate:
the logging failure is propagated, not swallowed. -/
theorem ssl_log_failure_propagates_cex :
    (uploadManualCertificate envLogFail dtoA stA).1 = .error .logFailed ∧
    (uploadManualCertificate envLogFail dtoA stA).2.certs.length = 1 :=
  ⟨rfl, rfl⟩

/-- C6: when the acme renewal call fails (here: rate limited), the
service does not surface any renewal error, it commits the fallback
record — old material, validity window moved to now + 90 days, status
forced to `valid` — and returns it as a successful renewal. -/
theorem renewCertificate_commits_on_ca_failure :
    (renewCertificate envBase "c1" stR).1 = .ok certExtendedA ∧
    certExtendedA.certificate = certA.certificate ∧
    certExtendedA.validTo = 90 * msPerDay ∧
    certExtendedA.status = .valid ∧
    findCertById (renewCertificate envBase "c1" stR).2 "c1" = some certExtendedA :=
  ⟨rfl, rfl, rfl, rfl, rfl⟩

/-- C1 counterexample: a run of `updateDomain` in which the reload fails
surfaces the reload error after exactly one reload executor call: no
second reload is issued to restore the live proxy. -/
theorem updateDomain_no_second_reload_cex :
    (updateDomain envReloadFail "d1" inpPortChange stA).1 =
      .error (.reloadFailed "boom") ∧
    (updateDomain envReloadFail "d1" inpPortChange stA).2.reloadCalls = 1 ∧
    (updateDomain envReloadFail "d1" inpPortChange stA).2.reloadCalls ≠ 2 :=
  ⟨rfl, rfl, by decide⟩

/-- `applyUpdate` never changes the record id. -/
theorem applyUpdate_id (d : Domain) (i : UpdateDomainInput) :
    (applyUpdate d i).id = d.id := rfl

/-- Writing the rollback snapshot of `d` over any update of `d` restores
`d` exactly. -/
theorem applyUpdate_snapshot (d : Domain) (i : UpdateDomainInput) :
    applyUpdate (applyUpdate d i) (snapshotOf d) = d := rfl

/-- Writing the rollback snapshot of `d` over `d` itself is the identity. -/
theorem applyUpdate_self (d : Domain) : applyUpdate d (snapshotOf d) = d := rfl

/-- Searching an id-keyed list after an id-preserving conditional map
finds the mapped image of the original hit. -/
theorem find?_map_ite (l : List Domain) (id : String) (f : Domain → Domain)
    (hf : ∀ d, (f d).id = d.id) :
    (l.map (fun d => if d.id = id then f d else d)).find?
        (fun d => decide (d.id = id)) =
      (l.find? (fun d => decide (d.id = id))).map f := by
  induction l with
  | nil => rfl
  | cons d rest ih =>
    by_cases hd : d.id = id
    · simp [hd, hf]
    · simp [hd, ih]

/-- A conditional map whose condition never holds is the identity. -/
theorem map_ite_id_of_nomatch (l : List Domain) (id : String) (f : Domain → Domain)
    (h : ∀ d ∈ l, d.id ≠ id) :
    l.map (fun d => if d.id = id then f d else d) = l := by
  induction l with
  | nil => rfl
  | cons d rest ih =>
    have hd : d.id ≠ id := h d (List.mem_cons_self d rest)
    have hre : ∀ x ∈ rest, x.id ≠ id := fun x hx => h x (List.mem_cons_of_mem d hx)
    simp [hd, ih hre]

/-- Deleting an id that is not present leaves the list unchanged. -/
theorem filter_ne_id_of_nomatch (l : List Domain) (id : String)
    (h : ∀ d ∈ l, d.id ≠ id) :
    l.filter (fun d => decide (d.id ≠ id)) = l := by
  induction l with
  | nil => rfl
  | cons d rest ih =>
    have hd : d.id ≠ id := h d (List.mem_cons_self d rest)
    have hre : ∀ x ∈ rest, x.id ≠ id := fun x hx => h x (List.mem_cons_of_mem d hx)
    rw [List.filter_cons, if_pos (by simp [hd]), ih hre]

/-- Reading a config artifact right after writing it returns it. -/
theorem getFile_set_same (name : String) (a : Domain) (l : List (String × Domain)) :
    getFile (setFile name a l) name = some a := by
  simp [getFile, setFile]

/-- Reading a config artifact after deleting its name returns nothing. -/
theorem getFile_erase (l : List (String × Domain)) (name : String) :
    getFile (l.filter (fun p => decide (p.1 ≠ name))) name = none := by
  induction l with
  | nil => rfl
  | cons p rest ih =>
    by_cases hp : p.1 = name
    · rw [List.filter_cons, if_neg (by simp [hp])]
      exact ih
    · rw [List.filter_cons, if_pos (by simp [hp])]
      unfold getFile at ih ⊢
      rw [List.find?_cons_of_neg _ (by simp [hp])]
      exact ih

/-- C1 (amended): when the reload after an update fails, `updateDomain`
surfaces the reload error, the stored Site is deep-equal to the pre-call
snapshot (upstreams and load balancer included), and the artifact under
the Site name is re-rendered from that snapshot; exactly one reload call
is made, so no second reload restores the live proxy. -/
theorem updateDomain_rollback_restores_snapshot (env : Env) (id : String)
    (input : UpdateDomainInput) (s0 : St) (original : Domain)
    (hfind : findById s0 id = some original)
    (hgenU : env.genOk (applyUpdate original input) = true)
    (hgenO : env.genOk original = true)
    (hrel : env.reloadOk s0.reloadCalls = false) :
    (updateDomain env id input s0).1 =
      .error (.reloadFailed ((env.reloadErr s0.reloadCalls).getD "Unknown error")) ∧
    findById (updateDomain env id input s0).2 id = some original ∧
    getFile (updateDomain env id input s0).2.files original.name = some original ∧
    (updateDomain env id input s0).2.reloadCalls = s0.reloadCalls + 1 := by
  have hstep1 : ∀ l : List Domain,
      (l.map (fun d => if d.id = id then applyUpdate d input else d)).find?
          (fun d => decide (d.id = id)) =
        (l.find? (fun d => decide (d.id = id))).map (fun d => applyUpdate d input) :=
    fun l => find?_map_ite l id _ (fun d => rfl)
  have hstep2 : ∀ l : List Domain,
      (l.map (fun d => if d.id = id then applyUpdate d (snapshotOf original) else d)).find?
          (fun d => decide (d.id = id)) =
        (l.find? (fun d => decide (d.id = id))).map
          (fun d => applyUpdate d (snapshotOf original)) :=
    fun l => find?_map_ite l id _ (fun d => rfl)
  have hfindr : s0.repo.find? (fun d => decide (d.id = id)) = some original := hfind
  refine ⟨?_, ?_, ?_, ?_⟩ <;>
    simp [-List.find?_map, -List.map_map, updateDomain, updateBody, updateRollback,
      findById, mapRepo, generateConfigE, reloadCall, hstep1, hstep2, hfindr,
      applyUpdate_snapshot, applyUpdate_self, hgenU, hgenO, hrel,
      getFile_set_same]

/-- C1 witness: the port-change update against `domA` under a failing
reload surfaces the reload error and restores the snapshot. -/
theorem updateDomain_rollback_restores_snapshot_witness :
    (updateDomain envReloadFail "d1" inpPortChange stA).1 =
      .error (.reloadFailed ((envReloadFail.reloadErr stA.reloadCalls).getD "Unknown error")) ∧
    findById (updateDomain envReloadFail "d1" inpPortChange stA).2 "d1" = some domA ∧
    getFile (updateDomain envReloadFail "d1" inpPortChange stA).2.files domA.name =
      some domA ∧
    (updateDomain envReloadFail "d1" inpPortChange stA).2.reloadCalls =
      stA.reloadCalls + 1 :=
  updateDomain_rollback_restores_snapshot envReloadFail "d1" inpPortChange stA domA
    rfl rfl rfl rfl

/-- C4: when the reload after creating a Site fails, `createDomain`
surfaces the reload error, the Site table is returned to its pre-call
contents, the rendered artifact is deleted and the name is not enabled:
no Site with the new name remains. -/
theorem createDomain_reload_failure_rollback (env : Env) (input : CreateDomainInput)
    (s0 : St)
    (hname : findByName s0 input.name = none)
    (hfresh : ∀ d ∈ s0.repo, d.id ≠ env.freshId)
    (hgen : env.genOk (newDomainOf env input) = true)
    (hrel : env.reloadOk s0.reloadCalls = false) :
    (createDomain env input s0).1 =
      .error (.reloadFailed ((env.reloadErr s0.reloadCalls).getD "Unknown error")) ∧
    (createDomain env input s0).2.repo = s0.repo ∧
    getFile (createDomain env input s0).2.files input.name = none ∧
    findByName (createDomain env input s0).2 input.name = none ∧
    input.name ∉ (createDomain env input s0).2.enabled := by
  have hmap : s0.repo.map
      (fun d => if d.id = env.freshId then { d with status := "active" } else d) = s0.repo :=
    map_ite_id_of_nomatch _ _ _ hfresh
  have hfil : s0.repo.filter (fun d => decide (d.id ≠ env.freshId)) = s0.repo :=
    filter_ne_id_of_nomatch _ _ hfresh
  have hnamer : s0.repo.find? (fun d => decide (d.name = input.name)) = none := hname
  have hid : (newDomainOf env input).id = env.freshId := rfl
  have hnm : (newDomainOf env input).name = input.name := rfl
  have hnames : ∀ x ∈ s0.repo, x.name ≠ input.name := by
    intro x hx
    have h2 := List.find?_eq_none.mp hnamer x hx
    simpa using h2
  refine ⟨?_, ?_, ?_, ?_, ?_⟩ <;>
    simp [-List.find?_map, -List.map_map, createDomain, createBody,
      findByName, mapRepo, repoDelete, generateConfigE, reloadCall, enableConfig,
      deleteConfig, hid, hnm, hmap, hfil, hnamer, hgen, hrel, getFile_erase,
      hfresh, hnames]
  · exact fun a ha => hfresh a ha
  · have h3 := getFile_erase (setFile input.name (newDomainOf env input) s0.files) input.name
    simpa using h3
  · intro x hx h1
    exact hnames x hx

/-- C4 witness: creating `new.example.com` under a failing reload rolls
the state back fully and surfaces the reload error. -/
theorem createDomain_reload_failure_rollback_witness :
    (createDomain envReloadFail inpCreate stA).1 =
      .error (.reloadFailed ((envReloadFail.reloadErr stA.reloadCalls).getD "Unknown error")) ∧
    (createDomain envReloadFail inpCreate stA).2.repo = stA.repo ∧
    getFile (createDomain envReloadFail inpCreate stA).2.files inpCreate.name = none ∧
    findByName (createDomain envReloadFail inpCreate stA).2 inpCreate.name = none ∧
    inpCreate.name ∉ (createDomain envReloadFail inpCreate stA).2.enabled :=
  createDomain_reload_failure_rollback envReloadFail inpCreate stA rfl (by decide) rfl rfl

/-- C8: every certificate record persisted by the manual-upload path has
`autoRenew = false`, and the scheduler sweep classifies any certificate
with `autoRenew = false` as skipped, regardless of issuer or expiry. -/
theorem manual_upload_never_autorenewed :
    (∀ env dto s0 cert s1,
      uploadManualCertificate env dto s0 = (.ok cert, s1) → cert.autoRenew = false) ∧
    (∀ now c, c.autoRenew = false → sweepDecision now c = .skipAutoRenew) := by
  constructor
  · intro env dto s0 cert s1 h
    unfold uploadManualCertificate at h
    repeat' (first | split at h | simp_all [uploadCertRecord])
    all_goals
      obtain ⟨h1, h2⟩ := h
      subst h1
      rfl
  · intro now c h
    simp [sweepDecision, h]

/-- C8 witness: the record created by the concrete upload run has
autoRenew off, and a certificate with autoRenew off is skipped. -/
theorem manual_upload_never_autorenewed_witness :
    (uploadCertRecord envBase dtoA domA infoA).autoRenew = false ∧
    sweepDecision 0 { certA with autoRenew := false } = .skipAutoRenew :=
  ⟨manual_upload_never_autorenewed.1 envBase dtoA stA
      (uploadCertRecord envBase dtoA domA infoA)
      ((uploadManualCertificate envBase dtoA stA).2) rfl,
   manual_upload_never_autorenewed.2 0 { certA with autoRenew := false } rfl⟩

/-- C10: when every validation step passes, the manual upload persists
the certificate record, updates the owning Site sslExpiry cache and
returns the created record even though every certificate file write to
disk fails; the disk failure leaves no trace in the result. -/
theorem uploadManual_ignores_fs_failure (env : Env) (dto : UploadManualSSLDto)
    (s0 : St) (dom : Domain) (info : ParsedCert)
    (hdom : findById s0 dto.domainId = some dom)
    (hnocert : findCertByDomainId s0 dto.domainId = none)
    (hparse : env.parseResult dto.certificate = .ok info)
    (hkp : env.keyPair dto.certificate dto.privateKey ≠ .mismatch)
    (hmatch : (matchesHostname info.commonName dom.name
        || info.sans.any (fun san => matchesHostname san dom.name)) = true)
    (hexp : ¬ info.validTo < env.now)
    (hfs : env.fsOk = false)
    (hlog : env.logOk = true) :
    (uploadManualCertificate env dto s0).1 = .ok (uploadCertRecord env dto dom info) ∧
    (uploadManualCertificate env dto s0).2.certs =
      s0.certs ++ [uploadCertRecord env dto dom info] ∧
    (uploadManualCertificate env dto s0).2.sslFiles = s0.sslFiles ∧
    findById (uploadManualCertificate env dto s0).2 dto.domainId =
      some { dom with sslExpiry := some info.validTo } := by
  have hstep : ∀ l : List Domain,
      (l.map (fun d =>
          if d.id = dto.domainId then { d with sslExpiry := some info.validTo } else d)).find?
          (fun d => decide (d.id = dto.domainId)) =
        (l.find? (fun d => decide (d.id = dto.domainId))).map
          (fun d => { d with sslExpiry := some info.validTo }) :=
    fun l => find?_map_ite l _ _ (fun d => rfl)
  have hdomr : s0.repo.find? (fun d => decide (d.id = dto.domainId)) = some dom := hdom
  have hcertr : s0.certs.find? (fun c => decide (c.domainId = dto.domainId)) = none :=
    hnocert
  refine ⟨?_, ?_, ?_, ?_⟩ <;>
    simp [-List.find?_map, -List.map_map, uploadManualCertificate, findById,
      findCertByDomainId, updateDomainSSLExpiry, mapRepo, sslLogActivity,
      hstep, hdomr, hcertr, hparse, hkp, hmatch, hexp, hfs, hlog]

/-- C10 witness: the concrete upload run under failing disk writes still
persists and returns the certificate and updates the Site expiry. -/
theorem uploadManual_ignores_fs_failure_witness :
    (uploadManualCertificate envFsFail dtoA stA).1 =
      .ok (uploadCertRecord envFsFail dtoA domA infoA) ∧
    (uploadManualCertificate envFsFail dtoA stA).2.certs =
      stA.certs ++ [uploadCertRecord envFsFail dtoA domA infoA] ∧
    (uploadManualCertificate envFsFail dtoA stA).2.sslFiles = stA.sslFiles ∧
    findById (uploadManualCertificate envFsFail dtoA stA).2 dtoA.domainId =
      some { domA with sslExpiry := some infoA.validTo } :=
  uploadManual_ignores_fs_failure envFsFail dtoA stA domA infoA rfl rfl rfl
    (by decide) (by decide) (by decide) rfl rfl

end NginxLove
